import Mathlib

/-!
Verification development for the JSON:API atomic-operations pipeline
(`atomic_operations/parsers.py`, `atomic_operations/views.py`,
`atomic_operations/consts.py`).

The Python code is shallowly embedded: JSON documents become the `JSON`
inductive, Python dicts become association lists preserving insertion
order, Python exceptions become an explicit `Exc` error type threaded
through `Except`, and Python truthiness is made explicit via `truthy`.
The per-resource serializer classes (Django REST framework) and the
database are external collaborators of the repository; they are modelled
at their interface boundary as described at each definition.
-/

namespace AtomicOps

/-- A JSON value.  Objects keep their fields as an ordered association
list, mirroring the insertion order of Python dicts. -/
inductive JSON where
  | null
  | bool (b : Bool)
  | num (n : Int)
  | str (s : String)
  | arr (elems : List JSON)
  | obj (fields : List (String × JSON))
  deriving Repr

/-- A Python dict decoded from JSON: ordered association list. -/
abbrev Obj := List (String × JSON)

mutual

/-- Structural equality test on JSON values (Python `==` on decoded
JSON). -/
def JSON.beq : JSON → JSON → Bool
  | .null, .null => true
  | .bool a, .bool b => a == b
  | .num a, .num b => a == b
  | .str a, .str b => a == b
  | .arr a, .arr b => JSON.beqList a b
  | .obj a, .obj b => JSON.beqFields a b
  | _, _ => false

def JSON.beqList : List JSON → List JSON → Bool
  | [], [] => true
  | a :: as, b :: bs => JSON.beq a b && JSON.beqList as bs
  | _, _ => false

def JSON.beqFields : List (String × JSON) → List (String × JSON) → Bool
  | [], [] => true
  | (k, v) :: t, (k2, v2) :: t2 => k == k2 && JSON.beq v v2 && JSON.beqFields t t2
  | _, _ => false

end

mutual

def JSON.beq_iff : ∀ a b : JSON, JSON.beq a b = true ↔ a = b
  | .null, .null => by simp [JSON.beq]
  | .bool a, .bool b => by simp [JSON.beq]
  | .num a, .num b => by simp [JSON.beq]
  | .str a, .str b => by simp [JSON.beq]
  | .arr a, .arr b => by simp [JSON.beq, JSON.beqList_iff a b]
  | .obj a, .obj b => by simp [JSON.beq, JSON.beqFields_iff a b]
  | .null, .bool _ | .null, .num _ | .null, .str _ | .null, .arr _ | .null, .obj _ => by
    simp [JSON.beq]
  | .bool _, .null | .bool _, .num _ | .bool _, .str _ | .bool _, .arr _ | .bool _, .obj _ => by
    simp [JSON.beq]
  | .num _, .null | .num _, .bool _ | .num _, .str _ | .num _, .arr _ | .num _, .obj _ => by
    simp [JSON.beq]
  | .str _, .null | .str _, .bool _ | .str _, .num _ | .str _, .arr _ | .str _, .obj _ => by
    simp [JSON.beq]
  | .arr _, .null | .arr _, .bool _ | .arr _, .num _ | .arr _, .str _ | .arr _, .obj _ => by
    simp [JSON.beq]
  | .obj _, .null | .obj _, .bool _ | .obj _, .num _ | .obj _, .str _ | .obj _, .arr _ => by
    simp [JSON.beq]

def JSON.beqList_iff : ∀ a b : List JSON, JSON.beqList a b = true ↔ a = b
  | [], [] => by simp [JSON.beqList]
  | a :: as, b :: bs => by simp [JSON.beqList, JSON.beq_iff a b, JSON.beqList_iff as bs]
  | [], _ :: _ => by simp [JSON.beqList]
  | _ :: _, [] => by simp [JSON.beqList]

def JSON.beqFields_iff : ∀ a b : List (String × JSON), JSON.beqFields a b = true ↔ a = b
  | [], [] => by simp [JSON.beqFields]
  | (k, v) :: t, (k2, v2) :: t2 => by
    simp [JSON.beqFields, JSON.beq_iff v v2, JSON.beqFields_iff t t2, and_assoc]
  | [], _ :: _ => by simp [JSON.beqFields]
  | _ :: _, [] => by simp [JSON.beqFields]

end

instance : DecidableEq JSON := fun a b =>
  decidable_of_iff (JSON.beq a b = true) (JSON.beq_iff a b)

instance {ε α : Type} [DecidableEq ε] [DecidableEq α] : DecidableEq (Except ε α) := fun a b =>
  match a, b with
  | .ok x, .ok y =>
    if h : x = y then isTrue (by rw [h]) else isFalse (fun hh => h (Except.ok.inj hh))
  | .error x, .error y =>
    if h : x = y then isTrue (by rw [h]) else isFalse (fun hh => h (Except.error.inj hh))
  | .ok _, .error _ => isFalse (fun hh => Except.noConfusion hh)
  | .error _, .ok _ => isFalse (fun hh => Except.noConfusion hh)

/-- Lookup in an association list with decidable keys (Python `d.get(k)`
for the first matching key). -/
def alistGet {κ α : Type} [DecidableEq κ] : List (κ × α) → κ → Option α
  | [], _ => none
  | (k, v) :: rest, key => if k = key then some v else alistGet rest key

/-- Python dict item assignment `d[k] = v`: replaces the value in place if
the key exists (keeping its position), otherwise appends the new entry. -/
def alistSet {κ α : Type} [DecidableEq κ] : List (κ × α) → κ → α → List (κ × α)
  | [], key, v => [(key, v)]
  | (k, w) :: rest, key, v =>
    if k = key then (k, v) :: rest else (k, w) :: alistSet rest key v

/-- Python `k in d` membership test. -/
def Obj.hasKey (o : Obj) (k : String) : Bool :=
  (alistGet o k).isSome

/-- Python truthiness of a decoded JSON value (`bool(x)`). -/
def truthy : JSON → Bool
  | .null => false
  | .bool b => b
  | .num n => n ≠ 0
  | .str s => s ≠ ""
  | .arr l => ¬ l.isEmpty
  | .obj o => ¬ o.isEmpty

/-- Python truthiness of `d.get(k)` (absent key yields `None`, falsy). -/
def truthyO : Option JSON → Bool
  | none => false
  | some j => truthy j

/-- Whether a JSON value is usable as a Python dict key (hashable);
lists and dicts are unhashable and raise `TypeError`. -/
def hashable : JSON → Bool
  | .arr _ => false
  | .obj _ => false
  | _ => true

/-- Rendering of a scalar inside a Python f-string (`f"{x}"`).  The
embedded code only interpolates strings, numbers and `None` on the paths
the claims exercise. -/
def pyStr : JSON → String
  | .null => "None"
  | .bool true => "True"
  | .bool false => "False"
  | .num n => toString n
  | .str s => s
  | .arr _ => "[...]"
  | .obj _ => "{...}"

/-! ### Constants (`atomic_operations/consts.py`) -/

def ATOMIC_OPERATIONS : String := "atomic:operations"
def OP_ADD : String := "add"
def OP_UPDATE : String := "update"
def OP_REMOVE : String := "remove"
def OP_INVOKE : String := "invoke"
def OP_UPDATE_RELATIONSHIP : String := "update-relationship"

/-! ### Errors

`JsonApiParseError` / `UnprocessableEntity` payloads carry a machine id,
a human detail, a JSON-pointer source and a status class.  Other Python
exceptions (KeyError, AttributeError, TypeError, DRF ValidationError,
RecursionError) are distinguished constructors: any of them aborts the
request. -/

structure ApiError where
  id : String
  detail : String
  pointer : String
  status : String
  deriving Repr, DecidableEq

inductive Exc where
  | api (e : ApiError)
  | keyErr (k : String)
  | attrErr (k : String)
  | typeErr
  | validationErr
  | recursionErr
  deriving Repr, DecidableEq

/-- Python `x.get(k)` on a value expected to be a dict: AttributeError on
anything that is not a dict. -/
def pyGet (j : JSON) (k : String) : Except Exc (Option JSON) :=
  match j with
  | .obj o => .ok (alistGet o k)
  | _ => .error (.attrErr k)

/-- Python `x[k]` indexing on a value expected to be a dict: KeyError when
the key is missing, TypeError-ish crash on non-dicts. -/
def pyIndex (j : JSON) (k : String) : Except Exc JSON :=
  match j with
  | .obj o =>
    match alistGet o k with
    | some v => .ok v
    | none => .error (.keyErr k)
  | _ => .error (.attrErr k)

/-- Modelled from the spec: `atomic_operations/exceptions.py` is not part
of the provided sources; §7 of the spec fixes the machine id
`missing-primary-data` and §4.1 the pointer form for operation-shape
failures. -/
def MissingPrimaryData (idx : Nat) : ApiError :=
  { id := "missing-primary-data"
    detail := "The operation object must contain a `data` member"
    pointer := s!"/{ATOMIC_OPERATIONS}/{idx}/data"
    status := "400" }

/-- Modelled from the spec: `atomic_operations/exceptions.py` is not part
of the provided sources; §7 of the spec fixes the machine id
`invalid-primary-data-type`. -/
def InvalidPrimaryDataType (idx : Nat) (expected : String) : ApiError :=
  { id := "invalid-primary-data-type"
    detail := s!"The `data` member must be of type {expected}"
    pointer := s!"/{ATOMIC_OPERATIONS}/{idx}/data"
    status := "400" }

/-! ### `AtomicOperationParser` (`atomic_operations/parsers.py`) -/

/-- `AtomicOperationParser.check_resource_identifier_object`.  The
`operation_code` argument is a Python value compared against the string
literals `"update"` / `"remove"` / `"update"`. -/
def check_resource_identifier_object (idx : Nat) (resource_identifier_object : JSON)
    (operation_code : JSON) : Except Exc Unit :=
  let ptrField := if operation_code = JSON.str "update" then "data" else "ref"
  let step1 : Except Exc Unit :=
    if operation_code = JSON.str "update" ∨ operation_code = JSON.str "remove" then
      match pyGet resource_identifier_object "id" with
      | .error e => .error e
      | .ok resource_id =>
        match pyGet resource_identifier_object "lid" with
        | .error e => .error e
        | .ok resource_lid =>
          if ¬ (truthyO resource_id ∨ truthyO resource_lid) then
            .error (.api
              { id := "missing-id"
                detail := "The resource identifier object must contain an `id` member or a `lid` member"
                pointer := s!"/{ATOMIC_OPERATIONS}/{idx}/{ptrField}"
                status := "400" })
          else if truthyO resource_id ∧ truthyO resource_lid then
            .error (.api
              { id := "multiple-id-fields"
                detail := "Only one of `id`, `lid` may be specified"
                pointer := s!"/{ATOMIC_OPERATIONS}/{idx}/{ptrField}"
                status := "400" })
          else .ok ()
    else .ok ()
  match step1 with
  | .error e => .error e
  | .ok _ =>
    match pyGet resource_identifier_object "type" with
    | .error e => .error e
    | .ok t =>
      if ¬ truthyO t then
        .error (.api
          { id := "missing-type"
            detail := "The resource identifier object must contain an `type` member"
            pointer := s!"/{ATOMIC_OPERATIONS}/{idx}/{ptrField}"
            status := "400" })
      else .ok ()

/-- `AtomicOperationParser.check_add_operation`: `data` must be a dict,
then it is checked as a resource identifier object with code `"add"`. -/
def check_add_operation (idx : Nat) (data : Option JSON) : Except Exc Unit :=
  match data with
  | some (.obj o) => check_resource_identifier_object idx (.obj o) (.str "add")
  | _ => .error (.api (MissingPrimaryData idx))

/-- Sub-loop of `check_relation_update`: each relation of a to-many
payload is checked as a resource identifier object. -/
def checkRelationList (idx : Nat) : List JSON → Except Exc Unit
  | [] => .ok ()
  | relation :: rest =>
    match check_resource_identifier_object idx relation (.str "update") with
    | .error e => .error e
    | .ok _ => checkRelationList idx rest

/-- `AtomicOperationParser.check_relation_update`.  The `try`/`except
KeyError` around the `data` access maps a missing `data` key to
`MissingPrimaryData`; an explicit `data: null` is valid (clears the
relation). -/
def check_relation_update (idx : Nat) (operation : Obj) : Except Exc Unit :=
  match pyIndex (.obj operation) "ref" with
  | .error e => .error e
  | .ok ref =>
    match check_resource_identifier_object idx ref (.str "update") with
    | .error e => .error e
    | .ok _ =>
      match pyGet ref "relationship" with
      | .error e => .error e
      | .ok relationship =>
        if ¬ truthyO relationship then
          .error (.api
            { id := "missing-relationship-naming"
              detail := "relationship must be named by the `relationship` attribute"
              pointer := s!"/{ATOMIC_OPERATIONS}/{idx}/ref"
              status := "400" })
        else
          let body : Except Exc Unit :=
            match pyIndex (.obj operation) "data" with
            | .error e => .error e
            | .ok data =>
              if data = .null then .ok ()
              else match data with
                | .obj o => check_resource_identifier_object idx (.obj o) (.str "update")
                | .arr l => checkRelationList idx l
                | _ => .error (.api (InvalidPrimaryDataType idx "object or array"))
          match body with
          | .error (.keyErr _) => .error (.api (MissingPrimaryData idx))
          | r => r

/-- `AtomicOperationParser.check_update_operation`: a truthy `ref` routes
to the relationship-update checks, otherwise `data` must be a truthy dict
holding a valid resource identifier. -/
def check_update_operation (idx : Nat) (operation : Obj) : Except Exc Unit :=
  let ref := alistGet operation "ref"
  if truthyO ref then check_relation_update idx operation
  else
    let data := alistGet operation "data"
    if ¬ truthyO data then .error (.api (MissingPrimaryData idx))
    else match data with
      | some (.obj o) =>
        match pyIndex (.obj operation) "op" with
        | .error e => .error e
        | .ok opcode => check_resource_identifier_object idx (.obj o) opcode
      | _ => .error (.api (InvalidPrimaryDataType idx "object"))

/-- `AtomicOperationParser.check_remove_operation`. -/
def check_remove_operation (idx : Nat) (ref : Option JSON) : Except Exc Unit :=
  if ¬ truthyO ref then
    .error (.api
      { id := "missing-ref-attribute"
        detail := "`ref` must be part of remove operation"
        pointer := s!"/{ATOMIC_OPERATIONS}/{idx}"
        status := "400" })
  else check_resource_identifier_object idx ((ref).getD .null) (.str "remove")

/-- `AtomicOperationParser.check_invoke_operation`. -/
def check_invoke_operation (idx : Nat) (operation : Obj) : Except Exc Unit :=
  let ref := alistGet operation "ref"
  if ¬ truthyO ref then
    .error (.api
      { id := "missing-ref-attribute"
        detail := "`ref` is required for invoke operation"
        pointer := s!"/{ATOMIC_OPERATIONS}/{idx}"
        status := "400" })
  else
    match pyGet ((ref).getD .null) "href" with
    | .error e => .error e
    | .ok href =>
      if ¬ truthyO href then
        .error (.api
          { id := "missing-href-attribute"
            detail := "`href` is required in ref for invoke operation"
            pointer := s!"/{ATOMIC_OPERATIONS}/{idx}/ref"
            status := "400" })
      else
        match pyGet ((ref).getD .null) "type" with
        | .error e => .error e
        | .ok t =>
          if ¬ truthyO t then
            .error (.api
              { id := "missing-type"
                detail := "`type` is required in ref for invoke operation"
                pointer := s!"/{ATOMIC_OPERATIONS}/{idx}/ref"
                status := "400" })
          else .ok ()

/-- `AtomicOperationParser.check_operation`: dispatches the per-code
structural checks; `href` on a non-invoke operation is rejected before
any per-code check runs. -/
def check_operation (idx : Nat) (operation : Obj) : Except Exc Unit :=
  let operation_code := alistGet operation "op"
  let ref := alistGet operation "ref"
  let href := alistGet operation "href"
  let data := alistGet operation "data"
  if ¬ truthyO operation_code then
    .error (.api
      { id := "missing-operation-code"
        detail := "Received operation does not provide an operation code"
        pointer := s!"/{ATOMIC_OPERATIONS}/{idx}/op"
        status := "400" })
  else if truthyO href ∧ operation_code ≠ some (.str OP_INVOKE) then
    .error (.api
      { id := "not-implemented"
        detail := "Operation 'href' is only supported for invoke operations. Use 'ref' instead."
        pointer := s!"/{ATOMIC_OPERATIONS}/{idx}/href"
        status := "400" })
  else if operation_code = some (.str OP_ADD) then check_add_operation idx data
  else if operation_code = some (.str OP_REMOVE) then check_remove_operation idx ref
  else if operation_code = some (.str OP_UPDATE) then check_update_operation idx operation
  else if operation_code = some (.str OP_INVOKE) then check_invoke_operation idx operation
  else
    .error (.api
      { id := "unknown-operation-code"
        detail := s!"Unknown operation. Supported operations: add, update, remove, invoke"
        pointer := s!"/{ATOMIC_OPERATIONS}/{idx}/op"
        status := "400" })

/-- `AtomicOperationParser.parse_operation_metadata`.  Note: this method
is not handed the operation index; the `idx` interpolated into its
pointers is the resource identifier's `id` (or `lid`) value, and the
pointer is built without a leading slash. -/
def parse_operation_metadata (resource_identifier_object : Obj) (metadata : JSON) :
    Except Exc Obj :=
  if ¬ truthy metadata then .ok []
  else
    let idxv : JSON :=
      if Obj.hasKey resource_identifier_object "id" then
        (alistGet resource_identifier_object "id").getD .null
      else if Obj.hasKey resource_identifier_object "lid" then
        (alistGet resource_identifier_object "lid").getD .null
      else .null
    match metadata with
    | .obj m =>
      match m.find? (fun kv => kv.1 == "include" && !(match kv.2 with | .arr _ => true | _ => false)) with
      | some _ =>
        .error (.api
          { id := "invalid-operation-include-value"
            detail := "Received operation include value is not a list"
            pointer := s!"{ATOMIC_OPERATIONS}/{pyStr idxv}/meta/include"
            status := "400" })
      | none => .ok [("meta", .obj m)]
    | _ =>
      .error (.api
        { id := "invalid-operation-meta-object"
          detail := "Received operation meta data value is not valid"
          pointer := s!"{ATOMIC_OPERATIONS}/{pyStr idxv}/meta"
          status := "400" })

/-! ### `AtomicOperationView` (`atomic_operations/views.py`)

The lid registry `lid_to_id = defaultdict(dict)` maps a resource type to
a dict from lid to the server-assigned id string.  Both key levels hold
arbitrary (hashable) Python values, so keys are `JSON`. -/

abbrev LidReg := List (JSON × List (JSON × String))

/-- `self.lid_to_id[resource_type][lid]` read access.  The outer access
never fails (`defaultdict` yields an empty dict); the inner lookup can
miss. -/
def regLookup (reg : LidReg) (t l : JSON) : Option String :=
  alistGet ((alistGet reg t).getD []) l

/-- `self.lid_to_id[resource_type][lid] = id` write access. -/
def regInsert (reg : LidReg) (t l : JSON) (v : String) : LidReg :=
  alistSet reg t (alistSet ((alistGet reg t).getD []) l v)

/-- The `UnprocessableEntity` raised by `substitute_lids` when a lid is
not (yet) registered — also raised when a nested object carries a lid
without a `type` member, since both surface as `KeyError` inside the
guarded block. -/
def unknownLidError (lid : JSON) (idx : Nat) : ApiError :=
  { id := "unknown-lid"
    detail := "Object with lid `" ++ pyStr lid ++ "` received for operation with index `"
      ++ toString idx ++ "` does not exist"
    pointer := s!"/{ATOMIC_OPERATIONS}/{idx}/data/lid"
    status := "422" }

/-- The guarded (`try`) part of `substitute_lids`: when the dict has a
truthy `lid`, look up `data["type"]` (KeyError when missing) and then
`self.lid_to_id[resource_type][lid]` (KeyError when unregistered;
TypeError on unhashable keys, which is not caught).  Returns the id to
inject into `data["id"]`, if any. -/
def substLidStep (reg : LidReg) (o : Obj) : Except Exc (Option String) :=
  let lid := (alistGet o "lid").getD JSON.null
  if truthy lid then
    match alistGet o "type" with
    | none => .error (.keyErr "type")
    | some resource_type =>
      if hashable resource_type = false then .error .typeErr
      else if hashable lid = false then .error .typeErr
      else match regLookup reg resource_type lid with
        | some v => .ok (some v)
        | none => .error (.keyErr "lid")
  else .ok none

/-- Work items of the recursive walk of `substitute_lids`: a JSON node
with its `should_raise_unknown_lid_error` flag, the fields of a dict
being iterated (`for _, value in data.items()`), or the elements of a
list value (`[self.substitute_lids(v, ...) for v in value]`). -/
inductive SubstTask where
  | node (data : JSON) (should_raise : Bool)
  | fields (o : Obj) (injected : Option String)
  | elems (l : List JSON)

/-- Recursion engine of `AtomicOperationView.substitute_lids`.  The
`fuel` argument models CPython's bounded recursion (RecursionError on
exhaustion); the inputs the pipeline handles stay far below the bound.
A dict is processed by first running the guarded lid step (a `KeyError`
becomes `unknown-lid` only when `should_raise` is set — the top-level
target of an add is exempt), injecting the resolved id into `data["id"]`
(in place if the key exists, appended otherwise), then iterating all
values, descending into dict values and into dict elements of list
values with `should_raise` forced on. -/
def substGo (reg : LidReg) (idx : Nat) : Nat → SubstTask → Except Exc JSON
  | 0, _ => .error .recursionErr
  | fuel + 1, .node data should_raise =>
    match data with
    | .obj o =>
      let caught : Except Exc (Option String) :=
        match substLidStep reg o with
        | .error (.keyErr _) =>
          if should_raise then
            .error (.api (unknownLidError ((alistGet o "lid").getD JSON.null) idx))
          else .ok none
        | r => r
      match caught with
      | .error e => .error e
      | .ok injected =>
        match substGo reg idx fuel (.fields o injected) with
        | .error e => .error e
        | .ok (.obj o1) =>
          if injected.isSome ∧ ¬ Obj.hasKey o "id" then
            .ok (.obj (o1 ++ [("id", .str (injected.getD ""))]))
          else .ok (.obj o1)
        | .ok _ => .error .typeErr
    | j => .ok j
  | _ + 1, .fields [] _ => .ok (.obj [])
  | fuel + 1, .fields ((k, v) :: rest) injected =>
    let v1 : Except Exc JSON :=
      if k = "id" ∧ injected.isSome then .ok (.str (injected.getD ""))
      else match v with
        | .obj o => substGo reg idx fuel (.node (.obj o) true)
        | .arr l => substGo reg idx fuel (.elems l)
        | other => .ok other
    match v1 with
    | .error e => .error e
    | .ok v2 =>
      match substGo reg idx fuel (.fields rest injected) with
      | .error e => .error e
      | .ok (.obj rest1) => .ok (.obj ((k, v2) :: rest1))
      | .ok _ => .error .typeErr
  | _ + 1, .elems [] => .ok (.arr [])
  | fuel + 1, .elems (v :: rest) =>
    let v1 : Except Exc JSON :=
      match v with
      | .obj o => substGo reg idx fuel (.node (.obj o) true)
      | other => .ok other
    match v1 with
    | .error e => .error e
    | .ok v2 =>
      match substGo reg idx fuel (.elems rest) with
      | .error e => .error e
      | .ok (.arr rest1) => .ok (.arr (v2 :: rest1))
      | .ok _ => .error .typeErr

/-- Recursion budget modelling CPython's recursion limit. -/
def SUBST_FUEL : Nat := 64

/-- `AtomicOperationView.substitute_lids`. -/
def substitute_lids (reg : LidReg) (idx : Nat) (data : JSON)
    (should_raise_unknown_lid_error : Bool) : Except Exc JSON :=
  substGo reg idx SUBST_FUEL (.node data should_raise_unknown_lid_error)

/-! #### The data store and the resource-handler contract

Modelled from the spec: the per-resource serializer classes and the
Django ORM are external collaborators (§1, §6).  The store is the
transactional database: rows keyed by resource type and primary key,
with an auto-increment counter for server-assigned ids.  `validate` is
the handler's `is_valid` capability; creating, updating and deleting
rows model `apply`/`delete`; `render` produces `serializer.data`, a
representation carrying `type`, the instance `id` and its attributes. -/

structure Store where
  objs : List (JSON × String × Obj)
  next_pk : Nat
  deriving Repr, DecidableEq

/-- The externally supplied validation behaviour of the configured
serializer classes: given the effective operation code, the resource
type and the input data, decide `serializer.is_valid()`. -/
structure Handler where
  valid : String → JSON → JSON → Bool

/-- A bound serializer instance as produced by
`AtomicOperationView.get_serializer`. -/
structure Serializer where
  initial_data : JSON
  resource_type : JSON
  effective_code : String
  href : Option JSON
  isPartialUpdate : Bool
  instance_ : Option (String × Obj)
  deriving Repr, DecidableEq

/-- Attributes extracted from the parsed payload for persistence
(everything except the identifier members). -/
def dataAttrs : JSON → Obj
  | .obj o => o.filter (fun kv => ¬ (kv.1 = "id" ∨ kv.1 = "lid" ∨ kv.1 = "type"))
  | _ => []

/-- `serializer.data`: rendered representation of a persisted instance. -/
def render (t : JSON) (pk : String) (attrs : Obj) : Obj :=
  ("type", t) :: ("id", .str pk) :: attrs

/-- `Model.objects.get(pk=...)`: locate a row of the serializer's model
by primary key. -/
def locate (store : Store) (rt : JSON) (idv : JSON) : Option (String × Obj) :=
  match idv with
  | .str s => (store.objs.find? (fun row => row.1 == rt && row.2.1 == s)).map
      (fun row => (row.2.1, row.2.2))
  | _ => none

/-- Remove the row of type `rt` with primary key `pk`
(`serializer.instance.delete()`). -/
def deleteRow (store : Store) (rt : JSON) (pk : String) : Store :=
  { store with objs := store.objs.filter (fun row => ¬ (row.1 = rt ∧ row.2.1 = pk)) }

/-- `serializer.save()` (DRF `ModelSerializer.save`): update the bound
instance when one is set, otherwise create a new row with a fresh
server-assigned primary key.  Returns the new store, the primary key of
the saved instance and `serializer.data`. -/
def serializer_save (store : Store) (ser : Serializer) : Store × String × Obj :=
  match ser.instance_ with
  | some (pk, attrs0) =>
    let attrs1 := (dataAttrs ser.initial_data).foldl
      (fun acc kv => alistSet acc kv.1 kv.2) attrs0
    ({ store with
        objs := store.objs.map (fun row =>
          if row.1 = ser.resource_type ∧ row.2.1 = pk then (row.1, pk, attrs1) else row) },
      pk, render ser.resource_type pk attrs1)
  | none =>
    let pk := toString store.next_pk
    let attrs := dataAttrs ser.initial_data
    ({ objs := store.objs ++ [(ser.resource_type, pk, attrs)], next_pk := store.next_pk + 1 },
      pk, render ser.resource_type pk attrs)

/-- The error raised by `get_serializer` when locating the instance of
an update/remove operation fails. -/
def objectDoesNotExist (idv : JSON) (idx : Nat) : ApiError :=
  { id := "object-does-not-exist"
    detail := "Object with id `" ++ pyStr idv ++ "` received for operation with index `"
      ++ toString idx ++ "` does not exist"
    pointer := s!"/{ATOMIC_OPERATIONS}/{idx}/data/id"
    status := "422" }

/-- `AtomicOperationView.get_serializer`: for update/remove operations
the model instance is located via `kwargs["data"]["id"]` (KeyError when
the id is missing), raising `object-does-not-exist` on a miss.  The
serializer-class registry lookup itself is deployment configuration and
assumed complete. -/
def get_serializer (store : Store) (idx : Nat) (data : JSON) (operation_code : String)
    (resource_type : JSON) (href : Option JSON) (isPartialUpdate : Bool) :
    Except Exc Serializer :=
  let base : Serializer :=
    { initial_data := data, resource_type := resource_type, effective_code := operation_code
      href := href, isPartialUpdate := isPartialUpdate, instance_ := none }
  if operation_code = OP_UPDATE ∨ operation_code = OP_REMOVE then
    match pyIndex data "id" with
    | .error e => .error e
    | .ok idv =>
      match locate store resource_type idv with
      | some inst => .ok { base with instance_ := some inst }
      | none => .error (.api (objectDoesNotExist idv idx))
  else .ok base

/-- Python `s.startswith(p)`, computed on the character lists. -/
def pyStartsWith (s p : String) : Bool :=
  List.isPrefixOf p.data s.data

/-- `resource_type and resource_type.startswith("bulk")`. -/
def is_bulk_operation_type (t : JSON) : Bool :=
  truthy t && (match t with | .str s => pyStartsWith s "bulk" | _ => false)

/-- Execution state mutated while a batch runs: the store, the view
instance's `response_data` buffer and the class-level `lid_to_id`
registry. -/
structure ExecSt where
  store : Store
  response_data : List Obj
  lid_to_id : LidReg
  deriving Repr, DecidableEq

/-- `AtomicOperationView.handle_sequential`. -/
def handle_sequential (ctx : Handler) (st : ExecSt) (serializer : Serializer)
    (operation_code : String) : Except Exc ExecSt :=
  if operation_code = OP_ADD ∨ operation_code = OP_UPDATE ∨
      operation_code = OP_UPDATE_RELATIONSHIP then
    match serializer.initial_data with
    | .obj d =>
      let lid := (alistGet d "lid").getD JSON.null
      let resource_type := (alistGet d "type").getD JSON.null
      if operation_code = OP_ADD ∧ is_bulk_operation_type resource_type then
        -- bulk-collection add: validate, save and append the rendered result
        if ctx.valid serializer.effective_code serializer.resource_type
            serializer.initial_data then
          let (store1, _, sdata) := serializer_save st.store serializer
          .ok { st with store := store1, response_data := st.response_data ++ [sdata] }
        else .error .validationErr
      else
        if ctx.valid serializer.effective_code serializer.resource_type
            serializer.initial_data then
          let (store1, pk, sdata) := serializer_save st.store serializer
          let reg1 :=
            if operation_code = OP_ADD ∧ truthy lid then
              -- self.lid_to_id[resource_type][lid] = serializer.data["id"]
              regInsert st.lid_to_id resource_type lid pk
            else st.lid_to_id
          let resp1 :=
            if operation_code ≠ OP_UPDATE_RELATIONSHIP then st.response_data ++ [sdata]
            else st.response_data
          .ok { store := store1, response_data := resp1, lid_to_id := reg1 }
        else .error .validationErr
    | _ => .error (.attrErr "get")
  else if operation_code = OP_REMOVE then
    match serializer.instance_ with
    | some (pk, _) => .ok { st with store := deleteRow st.store serializer.resource_type pk }
    | none => .error (.attrErr "delete")
  else if operation_code = OP_INVOKE then
    if ctx.valid serializer.effective_code serializer.resource_type
        serializer.initial_data then
      let (store1, _, sdata) := serializer_save st.store serializer
      .ok { st with store := store1, response_data := st.response_data ++ [sdata] }
    else .error .validationErr
  else .ok st

/-- The buffered run state of the bulk strategy
(`bulk_operation_data`). -/
structure BulkData where
  serializer_collection : List Serializer
  next_operation_code : String
  next_resource_type : JSON
  deriving Repr, DecidableEq

/-- `AtomicOperationView.perform_bulk_create`: validate every buffered
serializer, insert all instances with one `bulk_create` into the first
serializer's model, then extend the response buffer with the rendered
instances (after the save, so the generated ids are available). -/
def perform_bulk_create (ctx : Handler) (st : ExecSt) (coll : List Serializer) :
    Except Exc ExecSt :=
  match coll with
  | [] => .error (.keyErr "serializer_collection")
  | first :: _ =>
    if coll.all (fun s => ctx.valid s.effective_code s.resource_type s.initial_data) then
      let inserted := coll.foldl
        (fun (acc : Store × List (String × Obj)) s =>
          let pk := toString acc.1.next_pk
          let attrs := dataAttrs s.initial_data
          ({ objs := acc.1.objs ++ [(first.resource_type, pk, attrs)]
             next_pk := acc.1.next_pk + 1 },
           acc.2 ++ [(pk, attrs)]))
        (st.store, [])
      .ok { st with
        store := inserted.1
        response_data := st.response_data ++
          inserted.2.map (fun pa => render first.resource_type pa.1 pa.2) }
    else .error .validationErr

/-- `AtomicOperationView.perform_bulk_delete`: record each buffered
instance's representation, then delete all of them with one filtered
delete on the first serializer's model. -/
def perform_bulk_delete (st : ExecSt) (coll : List Serializer) : Except Exc ExecSt :=
  match coll with
  | [] => .error (.keyErr "serializer_collection")
  | first :: _ =>
    if coll.all (fun s => s.instance_.isSome) then
      let obj_ids := coll.filterMap (fun s => s.instance_.map (fun i => i.1))
      let reps := coll.filterMap (fun s =>
        s.instance_.map (fun i => render s.resource_type i.1 i.2))
      .ok { st with
        store := { st.store with
          objs := st.store.objs.filter (fun row =>
            ¬ (row.1 = first.resource_type ∧ row.2.1 ∈ obj_ids)) }
        response_data := st.response_data ++ reps }
    else .error (.attrErr "pk")

/-- `AtomicOperationView.handle_bulk`: buffer the serializer; flush the
run when the (pre-computed) next operation code differs, or — evaluated
only then, mirroring Python's short-circuit `or` — when the next
resource type differs from `serializer.initial_data["type"]`.  The flush
dispatches on the literal `"add"` / `"delete"`, falling back to
`handle_sequential` on the first buffered serializer otherwise. -/
def handle_bulk (ctx : Handler) (st : ExecSt) (serializer : Serializer)
    (current_operation_code : String) (bulk : BulkData) : Except Exc (ExecSt × BulkData) :=
  let coll := bulk.serializer_collection ++ [serializer]
  let flush : Except Exc (ExecSt × BulkData) :=
    let flushed : Except Exc ExecSt :=
      if current_operation_code = "add" then perform_bulk_create ctx st coll
      else if current_operation_code = "delete" then perform_bulk_delete st coll
      else
        -- updates (and, due to the `"delete"` literal above, removes)
        -- fall back to sequential handling of the first buffered serializer
        match coll with
        | f :: _ => handle_sequential ctx st f current_operation_code
        | [] => .ok st
    match flushed with
    | .error e => .error e
    | .ok st1 => .ok (st1, { bulk with serializer_collection := [] })
  if bulk.next_operation_code ≠ current_operation_code then flush
  else
    match pyIndex serializer.initial_data "type" with
    | .error e => .error e
    | .ok ty =>
      if bulk.next_resource_type ≠ ty then flush
      else .ok (st, { bulk with serializer_collection := coll })

/-- One iteration of the loop in `perform_operations`: substitute lids
against the current registry (top-level add targets exempt from the
unknown-lid error), derive the serializer inputs, build the serializer
(locating the instance for update/remove), then dispatch sequentially or
through the bulk strategy with the one-operation lookahead. -/
def process_operation (ctx : Handler) (sequential : Bool)
    (parsed_operations : List (String × JSON)) (idx : Nat) (st : ExecSt) (bulk : BulkData)
    (operation : String × JSON) : Except Exc (ExecSt × BulkData) :=
  let operation_code := operation.1
  let should_raise := operation_code ≠ OP_ADD
  match substitute_lids st.lid_to_id idx operation.2 should_raise with
  | .error e => .error e
  | .ok obj =>
    let hrefE : Except Exc (Option JSON) :=
      if operation_code = OP_INVOKE then pyGet obj "href" else .ok none
    match hrefE with
    | .error e => .error e
    | .ok href =>
      let sdataE : Except Exc JSON :=
        if operation_code = OP_INVOKE then
          match pyGet obj "data" with
          | .error e => .error e
          | .ok d => .ok (d.getD obj)
        else .ok obj
      match sdataE with
      | .error e => .error e
      | .ok serializer_data =>
        let effective_operation_code :=
          if operation_code = OP_UPDATE_RELATIONSHIP then OP_UPDATE else operation_code
        match pyIndex obj "type" with
        | .error e => .error e
        | .ok rtype =>
          match get_serializer st.store idx serializer_data effective_operation_code rtype
              href (operation_code = OP_UPDATE ∨ operation_code = OP_UPDATE_RELATIONSHIP) with
          | .error e => .error e
          | .ok serializer =>
            if sequential then
              match handle_sequential ctx st serializer operation_code with
              | .error e => .error e
              | .ok st1 => .ok (st1, bulk)
            else
              let nextE : Except Exc (String × JSON) :=
                if parsed_operations.length = idx + 1 then .ok ("", .str "")
                else
                  match parsed_operations.get? (idx + 1) with
                  | none => .ok ("", .str "")
                  | some nextop =>
                    match pyIndex nextop.2 "type" with
                    | .error e => .error e
                    | .ok t => .ok (nextop.1, t)
              match nextE with
              | .error e => .error e
              | .ok next =>
                handle_bulk ctx st serializer operation_code
                  { bulk with next_operation_code := next.1, next_resource_type := next.2 }

/-- The `for idx, operation in enumerate(parsed_operations)` walk: stops
at the first exception, which unwinds out of the loop. -/
def run_ops (ctx : Handler) (sequential : Bool) (parsed_operations : List (String × JSON)) :
    Nat → ExecSt → BulkData → List (String × JSON) → ExecSt × BulkData × Option Exc
  | _, st, bulk, [] => (st, bulk, none)
  | idx, st, bulk, op :: rest =>
    match process_operation ctx sequential parsed_operations idx st bulk op with
    | .error e => (st, bulk, some e)
    | .ok (st1, bulk1) => run_ops ctx sequential parsed_operations (idx + 1) st1 bulk1 rest

/-- The view state a request starts from: the `response_data` buffer
and the class-level `lid_to_id` registry (views.py line 34). -/
structure ViewState where
  response_data : List Obj
  lid_to_id : LidReg
  deriving Repr, DecidableEq

/-- Outcome of `perform_operations`: the view state after the call, the
store after the transaction, and either the HTTP response (body and
status) or the propagated exception. -/
structure PerformOut where
  view : ViewState
  store : Store
  result : Except Exc (List Obj × Nat)
  deriving Repr, DecidableEq

/-- `AtomicOperationView.perform_operations`: reset `response_data`
(but not `lid_to_id`), run every operation inside one `atomic()` scope —
an exception rolls the store back to its entry state and propagates —
and on success answer 200 with the collected results, or 204 when the
response buffer is empty. -/
def perform_operations (ctx : Handler) (sequential : Bool) (view : ViewState)
    (store : Store) (parsed_operations : List (String × JSON)) : PerformOut :=
  let st0 : ExecSt := { store := store, response_data := [], lid_to_id := view.lid_to_id }
  let bulk0 : BulkData :=
    { serializer_collection := [], next_operation_code := "", next_resource_type := .str "" }
  match run_ops ctx sequential parsed_operations 0 st0 bulk0 parsed_operations with
  | (st, _, none) =>
    { view := { response_data := st.response_data, lid_to_id := st.lid_to_id }
      store := st.store
      result := .ok (st.response_data, if st.response_data.isEmpty then 204 else 200) }
  | (st, _, some e) =>
    { view := { response_data := st.response_data, lid_to_id := st.lid_to_id }
      store := store
      result := .error e }

/-- Two successive requests against the same deployment: each request
gets a fresh view instance, but `lid_to_id` is a class attribute
(views.py line 34) mutated in place and never reset by
`perform_operations` (which only resets `response_data`), so the second
request starts from the registry the first one left behind. -/
def serve_two (ctx : Handler) (store : Store) (req1 req2 : List (String × JSON)) :
    PerformOut × PerformOut :=
  let out1 := perform_operations ctx true { response_data := [], lid_to_id := [] } store req1
  let out2 := perform_operations ctx true
    { response_data := [], lid_to_id := out1.view.lid_to_id } out1.store req2
  (out1, out2)

/-! ### Concrete fixtures used by closed statements -/

/-- A handler whose serializers accept every payload. -/
def ctxTrue : Handler := { valid := fun _ _ _ => true }

/-- A fresh view (empty response buffer, empty lid registry). -/
def viewEmpty : ViewState := { response_data := [], lid_to_id := [] }

/-- An empty store whose first generated id will be `"1"`. -/
def storeEmpty : Store := { objs := [], next_pk := 1 }

/-- A store holding two `articles` rows with ids `"1"` and `"2"`. -/
def storeTwo : Store :=
  { objs := [(.str "articles", "1", []), (.str "articles", "2", [])], next_pk := 3 }

/-! ## Theorems -/

lemma truthy_null : truthy .null = false := rfl

lemma alistGet_alistSet_self {κ α : Type} [DecidableEq κ] (m : List (κ × α)) (k : κ) (v : α) :
    alistGet (alistSet m k v) k = some v := by
  induction m with
  | nil => simp [alistSet, alistGet]
  | cons hd tl ih =>
    obtain ⟨hk, hv⟩ := hd
    by_cases h : hk = k <;> simp [alistSet, alistGet, h, ih]

lemma alistGet_alistSet_ne {κ α : Type} [DecidableEq κ] (m : List (κ × α)) (k' k : κ) (v : α)
    (h : k' ≠ k) : alistGet (alistSet m k' v) k = alistGet m k := by
  induction m with
  | nil => simp [alistSet, alistGet, h]
  | cons hd tl ih =>
    obtain ⟨hk, hv⟩ := hd
    by_cases hh : hk = k' <;> by_cases hh2 : hk = k <;>
      simp_all [alistSet, alistGet]

lemma regLookup_regInsert_self (reg : LidReg) (t l : JSON) (v : String) :
    regLookup (regInsert reg t l v) t l = some v := by
  simp [regLookup, regInsert, alistGet_alistSet_self]

lemma regLookup_regInsert (reg : LidReg) (t' l' t l : JSON) (v : String) :
    regLookup (regInsert reg t' l' v) t l = some v ∨
      regLookup (regInsert reg t' l' v) t l = regLookup reg t l := by
  by_cases ht : t' = t
  · subst ht
    by_cases hl : l' = l
    · subst hl
      exact Or.inl (regLookup_regInsert_self reg t' l' v)
    · refine Or.inr ?_
      simp [regLookup, regInsert, alistGet_alistSet_self, alistGet_alistSet_ne _ _ _ _ hl]
  · refine Or.inr ?_
    simp [regLookup, regInsert, alistGet_alistSet_ne _ _ _ _ ht]

lemma regLookup_regInsert_ne (reg : LidReg) (t' l' t l : JSON) (v : String)
    (h : ¬ (t' = t ∧ l' = l)) :
    regLookup (regInsert reg t' l' v) t l = regLookup reg t l := by
  by_cases ht : t' = t
  · subst ht
    have hl : l' ≠ l := fun hh => h ⟨rfl, hh⟩
    simp [regLookup, regInsert, alistGet_alistSet_self, alistGet_alistSet_ne _ _ _ _ hl]
  · simp [regLookup, regInsert, alistGet_alistSet_ne _ _ _ _ ht]

/-! ### C7 -/

/-- C7 counterexample: a resource identifier carrying BOTH an `id` member
and a `lid` member passes validation when the `id` value is the empty
string, because the parser tests Python truthiness, not key presence —
so "if both are present the operation fails with `multiple-id-fields`"
is false as stated. -/
theorem id_lid_both_present_accepted_cex :
    check_resource_identifier_object 0
      (.obj [("id", .str ""), ("lid", .str "a"), ("type", .str "articles")])
      (.str "update") = .ok () := by decide

/-- C7 (amended): for Update/Remove targets, presence of `id`/`lid` is
judged by Python truthiness: if both members hold truthy values the
operation fails with `multiple-id-fields`, and if neither does it fails
with `missing-id`. -/
theorem id_lid_exactly_one_truthy :
    ∀ (idx : Nat) (o : Obj) (opc : JSON),
    opc = JSON.str "update" ∨ opc = JSON.str "remove" →
    (truthyO (alistGet o "id") = true → truthyO (alistGet o "lid") = true →
      ∃ e, check_resource_identifier_object idx (.obj o) opc = .error (.api e) ∧
        e.id = "multiple-id-fields")
    ∧ (truthyO (alistGet o "id") = false → truthyO (alistGet o "lid") = false →
      ∃ e, check_resource_identifier_object idx (.obj o) opc = .error (.api e) ∧
        e.id = "missing-id") := by
  intro idx o opc hopc
  constructor
  · intro h1 h2
    rcases hopc with h | h <;> subst h <;>
      simp [check_resource_identifier_object, pyGet, h1, h2]
  · intro h1 h2
    rcases hopc with h | h <;> subst h <;>
      simp [check_resource_identifier_object, pyGet, h1, h2]

/-- C7 witness: the amended theorem applied at concrete identifiers. -/
theorem id_lid_exactly_one_truthy_witness :
    (∃ e, check_resource_identifier_object 0
        (.obj [("id", .str "1"), ("lid", .str "a"), ("type", .str "articles")])
        (.str "update") = .error (.api e) ∧ e.id = "multiple-id-fields")
    ∧ (∃ e, check_resource_identifier_object 0
        (.obj [("type", .str "articles")]) (.str "remove") = .error (.api e) ∧
        e.id = "missing-id") :=
  ⟨(id_lid_exactly_one_truthy 0 _ _ (Or.inl rfl)).1 (by decide) (by decide),
   (id_lid_exactly_one_truthy 0 _ _ (Or.inr rfl)).2 (by decide) (by decide)⟩

/-! ### C8 -/

/-- C8 counterexample: an operation whose code is not `invoke` carrying
an `href` member with value `""` passes `check_operation`, because the
parser tests `href` for truthiness, not presence — so "the presence of
an `href` member always produces `not-implemented`" is false as
stated. -/
theorem href_empty_accepted_cex :
    check_operation 0
      [("op", .str "update"), ("href", .str ""),
       ("data", .obj [("type", .str "a"), ("id", .str "1")])] = .ok () := by decide

/-- C8 (amended): for every operation whose (truthy) code is not
`invoke`, a truthy `href` member always fails with `not-implemented`,
before and regardless of the per-code checks on the other fields. -/
theorem href_non_invoke_not_implemented :
    ∀ (idx : Nat) (operation : Obj) (v h : JSON),
    alistGet operation "op" = some v → truthy v = true → v ≠ .str OP_INVOKE →
    alistGet operation "href" = some h → truthy h = true →
    check_operation idx operation = .error (.api
      { id := "not-implemented"
        detail := "Operation 'href' is only supported for invoke operations. Use 'ref' instead."
        pointer := s!"/{ATOMIC_OPERATIONS}/{idx}/href"
        status := "400" }) := by
  intro idx operation v h hop htr hne hhref htrh
  simp [check_operation, hop, hhref, htr, htrh, truthyO, hne]

/-- C8 witness: a fully valid update operation with a non-empty `href`
fails with `not-implemented`. -/
theorem href_non_invoke_not_implemented_witness :
    check_operation 0
      [("op", .str "update"), ("href", .str "/x"),
       ("data", .obj [("type", .str "a"), ("id", .str "1")])] = .error (.api
      { id := "not-implemented"
        detail := "Operation 'href' is only supported for invoke operations. Use 'ref' instead."
        pointer := "/atomic:operations/0/href"
        status := "400" }) :=
  href_non_invoke_not_implemented 0 _ (.str "update") (.str "/x")
    rfl (by decide) (by decide) rfl (by decide)

/-! ### C9 -/

/-- C9: the meta-object validation failure does NOT carry a pointer of
the form `/<operationsKey>/<i>/<field>`: for the operation at index 0
with resource id `"42"` and a non-dict `meta`, the raised pointer is
`atomic:operations/42/meta` — no leading slash, and the interpolated
component is the resource id, not the operation index (the method is
not even passed the operation index).  Every other parse failure uses
`/<operationsKey>/<idx>/...` with the enumerate index. -/
theorem meta_error_pointer_malformed :
    parse_operation_metadata [("type", .str "articles"), ("id", .str "42")] (.str "bogus") =
      .error (.api
        { id := "invalid-operation-meta-object"
          detail := "Received operation meta data value is not valid"
          pointer := "atomic:operations/42/meta"
          status := "400" })
    ∧ "atomic:operations/42/meta" ≠ "/" ++ ATOMIC_OPERATIONS ++ "/0/meta" := by
  constructor
  · decide
  · decide

/-! ### C10 -/

/-- C10 counterexample: a nested object containing a `lid` member (value
`""`) and no `type` member does not fail at all — the lid step only
fires on truthy lids — so "every nested object that contains a `lid`
member but no `type` member fails with `unknown-lid`" is false as
stated. -/
theorem nested_lid_falsy_accepted_cex :
    substitute_lids [] 0 (.obj [("rel", .obj [("lid", .str "")])]) true =
      .ok (.obj [("rel", .obj [("lid", .str "")])]) := by decide

/-- C10 (amended): during lid substitution, any nested object carrying a
truthy `lid` but no `type` member aborts the batch with `unknown-lid`
(the missing `type` surfaces as the caught `KeyError`, not as a
`missing-type` parse error) — even under the exempt top level of an add
(`should_raise_unknown_lid_error = false`), because recursion into
nested values always re-enables the error. -/
theorem nested_missing_type_unknown_lid :
    ∀ (reg : LidReg) (idx : Nat) (k : String) (d : Obj) (lv : JSON),
    alistGet d "lid" = some lv → truthy lv = true → Obj.hasKey d "type" = false →
    substitute_lids reg idx (.obj [(k, .obj d)]) false =
      .error (.api (unknownLidError lv idx)) := by
  intro reg idx k d lv h1 h2 h3
  have hety : alistGet d "type" = none := by
    cases he : alistGet d "type" with
    | none => rfl
    | some v => rw [Obj.hasKey, he] at h3; cases h3
  have hdne : d ≠ [] := by
    intro he; rw [he] at h1; cases h1
  have htd : truthy (JSON.obj d) = true := by simp [truthy, hdne]
  simp only [substitute_lids, SUBST_FUEL]
  by_cases hk : k = "lid"
  · subst hk
    simp [substGo, substLidStep, alistGet, hety, h1, h2, htd, truthy_null]
  · simp [substGo, substLidStep, alistGet, hk, hety, h1, h2, truthy_null]

/-- C10 witness: a payload whose `author` value carries lid `"x"` and no
type fails with `unknown-lid` for operation index 0. -/
theorem nested_missing_type_unknown_lid_witness :
    substitute_lids [] 0 (.obj [("author", .obj [("lid", .str "x")])]) false =
      .error (.api (unknownLidError (.str "x") 0)) :=
  nested_missing_type_unknown_lid [] 0 "author" [("lid", .str "x")] (.str "x")
    rfl (by decide) (by decide)

/-! ### C6 -/

/-- C6: for an Update operation in relationship form (truthy `ref` whose
identifier validates and whose `relationship` is truthy): a missing
`data` key fails with `missing-primary-data`, while an explicit
`data: null` passes validation; and when an update-relationship
operation executes, `handle_sequential` leaves the response buffer
unchanged, so it contributes no response entry. -/
theorem relationship_update_data_rules :
    (∀ (idx : Nat) (operation : Obj) (ro : Obj),
      alistGet operation "ref" = some (.obj ro) →
      check_resource_identifier_object idx (.obj ro) (.str "update") = .ok () →
      truthyO (alistGet ro "relationship") = true →
      ((Obj.hasKey operation "data" = false →
        check_update_operation idx operation = .error (.api (MissingPrimaryData idx)))
       ∧ (alistGet operation "data" = some .null →
        check_update_operation idx operation = .ok ())))
    ∧ (∀ (ctx : Handler) (st : ExecSt) (ser : Serializer) (st1 : ExecSt),
        handle_sequential ctx st ser OP_UPDATE_RELATIONSHIP = .ok st1 →
        st1.response_data = st.response_data) := by
  constructor
  · intro idx operation ro href hrio hrel
    have hrone : ro ≠ [] := by
      intro he
      rw [he] at hrel
      simp [alistGet, truthyO] at hrel
    have htro : truthy (JSON.obj ro) = true := by simp [truthy, hrone]
    have htro2 : truthyO (some (JSON.obj ro)) = true := htro
    constructor
    · intro hnodata
      have hnod : alistGet operation "data" = none := by
        cases he : alistGet operation "data" with
        | none => rfl
        | some v => rw [Obj.hasKey, he] at hnodata; cases hnodata
      simp [check_update_operation, check_relation_update, pyIndex, pyGet,
        href, htro2, hrio, hrel, hnod]
    · intro hnull
      simp [check_update_operation, check_relation_update, pyIndex, pyGet,
        href, htro2, hrio, hrel, hnull]
  · intro ctx st ser st1 h
    unfold handle_sequential at h
    simp only [OP_UPDATE_RELATIONSHIP, OP_ADD, OP_UPDATE, OP_REMOVE, OP_INVOKE] at h
    simp at h
    cases hd : ser.initial_data <;> rw [hd] at h <;> try cases h
    rename_i d
    by_cases hv : ctx.valid ser.effective_code ser.resource_type (.obj d) <;>
      simp [hv] at h
    rw [← h]

/-- C6 witness: the theorem applied at a concrete relationship update of
`articles/1`'s `author` relation. -/
theorem relationship_update_data_rules_witness :
    (check_update_operation 0
      [("op", .str "update"),
       ("ref", .obj [("type", .str "articles"), ("id", .str "1"),
                     ("relationship", .str "author")])] =
      .error (.api (MissingPrimaryData 0)))
    ∧ (check_update_operation 0
      [("op", .str "update"),
       ("ref", .obj [("type", .str "articles"), ("id", .str "1"),
                     ("relationship", .str "author")]),
       ("data", .null)] = .ok ())
    ∧ ((handle_sequential ctxTrue
        { store := storeTwo, response_data := [], lid_to_id := [] }
        { initial_data := .obj [("type", .str "articles"), ("id", .str "1")]
          resource_type := .str "articles", effective_code := "update", href := none
          isPartialUpdate := true, instance_ := some ("1", []) }
        OP_UPDATE_RELATIONSHIP).map (fun st => st.response_data) = .ok []) := by
  refine ⟨(relationship_update_data_rules.1 0
      [("op", .str "update"),
       ("ref", .obj [("type", .str "articles"), ("id", .str "1"),
                     ("relationship", .str "author")])]
      [("type", .str "articles"), ("id", .str "1"), ("relationship", .str "author")]
      rfl (by decide) (by decide)).1 (by decide),
    (relationship_update_data_rules.1 0
      [("op", .str "update"),
       ("ref", .obj [("type", .str "articles"), ("id", .str "1"),
                     ("relationship", .str "author")]),
       ("data", .null)]
      [("type", .str "articles"), ("id", .str "1"), ("relationship", .str "author")]
      rfl (by decide) (by decide)).2 (by decide), ?_⟩
  have h : handle_sequential ctxTrue
      { store := storeTwo, response_data := [], lid_to_id := [] }
      { initial_data := .obj [("type", .str "articles"), ("id", .str "1")]
        resource_type := .str "articles", effective_code := "update", href := none
        isPartialUpdate := true, instance_ := some ("1", []) }
      OP_UPDATE_RELATIONSHIP =
      .ok { store := storeTwo, response_data := [], lid_to_id := [] } := by decide
  have h2 := relationship_update_data_rules.2 _ _ _ _ h
  rw [h]
  simp [Except.map, h2]

/-! ### C3 -/

/-- C3: the lid registry is NOT scoped to one batch.  `lid_to_id` is a
class attribute (views.py line 34) mutated in place and never reset by
`perform_operations`, so a lid registered by request 1's Add is resolved
by request 2's Update against the registry request 1 left behind —
request 2 succeeds and updates the object created by request 1.  By
contrast, the same second request run against a fresh registry fails
with `unknown-lid`, showing the resolution is due to cross-request
leakage. -/
theorem lid_registry_leaks_across_requests :
    (serve_two ctxTrue storeEmpty
      [("add", .obj [("type", .str "articles"), ("lid", .str "a")])]
      [("update", .obj [("type", .str "articles"), ("lid", .str "a")])]).2.result =
      .ok ([[("type", .str "articles"), ("id", .str "1")]], 200)
    ∧ (serve_two ctxTrue storeEmpty
      [("add", .obj [("type", .str "articles"), ("lid", .str "a")])]
      [("update", .obj [("type", .str "articles"), ("lid", .str "a")])]).2.view.lid_to_id =
      [(.str "articles", [(.str "a", "1")])]
    ∧ (perform_operations ctxTrue true viewEmpty
        { objs := [(.str "articles", "1", [])], next_pk := 2 }
        [("update", .obj [("type", .str "articles"), ("lid", .str "a")])]).result =
      .error (.api (unknownLidError (.str "a") 0)) := by
  refine ⟨by decide, by decide, by decide⟩

/-! ### C5 -/

/-- C5: in bulk mode, a contiguous run of two Remove operations is NOT
flushed as one batched delete.  `handle_bulk` dispatches the flush on
the literal `"delete"`, but the operation code constant is `"remove"`
(consts.py), so the run falls into the sequential fallback, which
handles only the FIRST buffered serializer: the batch commits with only
article 1 deleted, article 2 still present, and no pre-deletion
representation recorded (`perform_bulk_delete` is unreachable). -/
theorem bulk_remove_run_not_batch_deleted :
    perform_operations ctxTrue false viewEmpty storeTwo
      [("remove", .obj [("type", .str "articles"), ("id", .str "1")]),
       ("remove", .obj [("type", .str "articles"), ("id", .str "2")])] =
    { view := { response_data := [], lid_to_id := [] }
      store := { objs := [(.str "articles", "2", [])], next_pk := 3 }
      result := .ok ([], 204) } := by decide

/-! ### C4 -/

/-- Per-operation response growth of `handle_sequential`: Add, Update
and Invoke append exactly one entry; Remove, UpdateRelationship and any
other code append none. -/
lemma handle_sequential_response (ctx : Handler) (st : ExecSt) (ser : Serializer)
    (code : String) (st1 : ExecSt) (h : handle_sequential ctx st ser code = .ok st1) :
    ∃ entry, st1.response_data = st.response_data ++
      (if code = OP_ADD ∨ code = OP_UPDATE ∨ code = OP_INVOKE then [entry] else []) := by
  by_cases hA : code = OP_ADD
  · subst hA
    simp only [handle_sequential, OP_ADD, OP_UPDATE, OP_REMOVE, OP_INVOKE,
      OP_UPDATE_RELATIONSHIP] at h
    simp at h
    repeat' split at h
    all_goals try cases h
    all_goals exact ⟨(serializer_save st.store ser).2.2,
      by simp [OP_ADD, OP_UPDATE, OP_INVOKE]⟩
  · by_cases hU : code = OP_UPDATE
    · subst hU
      simp only [handle_sequential, OP_ADD, OP_UPDATE, OP_REMOVE, OP_INVOKE,
        OP_UPDATE_RELATIONSHIP] at h
      simp at h
      repeat' split at h
      all_goals try cases h
      all_goals exact ⟨(serializer_save st.store ser).2.2,
        by simp [OP_ADD, OP_UPDATE, OP_INVOKE]⟩
    · by_cases hUR : code = OP_UPDATE_RELATIONSHIP
      · subst hUR
        simp only [handle_sequential, OP_ADD, OP_UPDATE, OP_REMOVE, OP_INVOKE,
          OP_UPDATE_RELATIONSHIP] at h
        simp at h
        repeat' split at h
        all_goals try cases h
        all_goals exact ⟨[], by simp [OP_ADD, OP_UPDATE, OP_INVOKE, OP_UPDATE_RELATIONSHIP]⟩
      · by_cases hR : code = OP_REMOVE
        · subst hR
          simp only [handle_sequential, OP_ADD, OP_UPDATE, OP_REMOVE, OP_INVOKE,
            OP_UPDATE_RELATIONSHIP] at h
          simp at h
          repeat' split at h
          all_goals try cases h
          all_goals exact ⟨[], by simp [OP_ADD, OP_UPDATE, OP_INVOKE, OP_REMOVE]⟩
        · by_cases hI : code = OP_INVOKE
          · subst hI
            simp only [handle_sequential, OP_ADD, OP_UPDATE, OP_REMOVE, OP_INVOKE,
              OP_UPDATE_RELATIONSHIP] at h
            simp at h
            repeat' split at h
            all_goals try cases h
            all_goals exact ⟨(serializer_save st.store ser).2.2,
              by simp [OP_ADD, OP_UPDATE, OP_INVOKE]⟩
          · have hTriple : ¬ (code = OP_ADD ∨ code = OP_UPDATE ∨
                code = OP_UPDATE_RELATIONSHIP) := by tauto
            unfold handle_sequential at h
            rw [if_neg hTriple, if_neg hR, if_neg hI] at h
            cases h
            exact ⟨[], by simp [hA, hU, hI]⟩

/-- In sequential mode, one loop iteration leaves the bulk state alone
and is exactly a `handle_sequential` dispatch of some serializer. -/
lemma process_operation_seq (ctx : Handler) (full : List (String × JSON)) (idx : Nat)
    (st : ExecSt) (bulk : BulkData) (op : String × JSON) (st1 : ExecSt) (bulk1 : BulkData)
    (h : process_operation ctx true full idx st bulk op = .ok (st1, bulk1)) :
    bulk1 = bulk ∧ ∃ ser, handle_sequential ctx st ser op.1 = .ok st1 := by
  unfold process_operation at h
  simp at h
  repeat' split at h
  all_goals try cases h
  all_goals rename_i heq
  all_goals exact ⟨rfl, _, heq⟩

/-- A successful sequential walk produces one response block per
operation, concatenated in input order: the block of operation `i` has
exactly one entry when its code is Add, Update or Invoke, and is empty
otherwise. -/
lemma run_ops_seq_response (ctx : Handler) (full : List (String × JSON)) :
    ∀ (ops : List (String × JSON)) (idx : Nat) (st : ExecSt) (bulk : BulkData)
      (st1 : ExecSt) (b1 : BulkData),
    run_ops ctx true full idx st bulk ops = (st1, b1, none) →
    ∃ entries : List (List Obj), entries.length = ops.length ∧
      st1.response_data = st.response_data ++ entries.flatten ∧
      ∀ i (hi : i < entries.length) (ho : i < ops.length),
        (entries.get ⟨i, hi⟩).length =
          (if (ops.get ⟨i, ho⟩).1 = OP_ADD ∨ (ops.get ⟨i, ho⟩).1 = OP_UPDATE ∨
              (ops.get ⟨i, ho⟩).1 = OP_INVOKE then 1 else 0) := by
  intro ops
  induction ops with
  | nil =>
    intro idx st bulk st1 b1 h
    simp [run_ops] at h
    refine ⟨[], by simp, by simp [h.1], ?_⟩
    intro i hi ho
    simp at hi
  | cons op rest ih =>
    intro idx st bulk st1 b1 h
    unfold run_ops at h
    cases hp : process_operation ctx true full idx st bulk op with
    | error e => rw [hp] at h; simp at h
    | ok p =>
      obtain ⟨st2, bulk2⟩ := p
      rw [hp] at h
      obtain ⟨hb, ser, hser⟩ := process_operation_seq ctx full idx st bulk op st2 bulk2 hp
      obtain ⟨entry, hresp⟩ := handle_sequential_response ctx st ser op.1 st2 hser
      obtain ⟨entries, hlen, hjoin, hcount⟩ := ih (idx + 1) st2 bulk2 st1 b1 h
      refine ⟨(if op.1 = OP_ADD ∨ op.1 = OP_UPDATE ∨ op.1 = OP_INVOKE then [entry] else [])
        :: entries, ?_, ?_, ?_⟩
      · simp [hlen]
      · rw [hjoin, hresp, List.append_assoc]
        simp
      · intro i hi ho
        cases i with
        | zero =>
          simp only [List.get]
          split <;> simp
        | succ n =>
          simp only [List.get]
          apply hcount

/-- C4 counterexample: a batch consisting of one Remove operation (the
only operation, and not an UpdateRelationship) succeeds with an EMPTY
response list — `handle_sequential` never appends anything for Remove —
so "one entry per operation that is not an UpdateRelationship" is false
as stated. -/
theorem remove_no_response_entry_cex :
    (perform_operations ctxTrue true viewEmpty storeTwo
      [("remove", .obj [("type", .str "articles"), ("id", .str "1")])]).result =
      .ok ([], 204)
    ∧ (([("remove", JSON.obj [("type", JSON.str "articles"), ("id", JSON.str "1")])].filter
        (fun op => op.1 != OP_UPDATE_RELATIONSHIP)).length) = 1 := by
  refine ⟨by decide, by decide⟩

/-- C4 (amended): for every sequential batch in which all operations
succeed, the response list is the in-order concatenation of one block
per operation, where the block holds exactly one entry for Add, Update
and Invoke operations and is empty for Remove and UpdateRelationship
operations (and for any other code). -/
theorem response_entries_per_operation :
    ∀ (ctx : Handler) (view : ViewState) (store : Store) (ops : List (String × JSON))
      (r : List Obj × Nat),
    (perform_operations ctx true view store ops).result = .ok r →
    ∃ entries : List (List Obj), entries.length = ops.length ∧
      r.1 = entries.flatten ∧
      ∀ i (hi : i < entries.length) (ho : i < ops.length),
        (entries.get ⟨i, hi⟩).length =
          (if (ops.get ⟨i, ho⟩).1 = OP_ADD ∨ (ops.get ⟨i, ho⟩).1 = OP_UPDATE ∨
              (ops.get ⟨i, ho⟩).1 = OP_INVOKE then 1 else 0) := by
  intro ctx view store ops r h
  simp only [perform_operations] at h
  rcases hr : run_ops ctx true ops 0
      { store := store, response_data := [], lid_to_id := view.lid_to_id }
      { serializer_collection := [], next_operation_code := "", next_resource_type := .str "" }
      ops with ⟨st, b, oe⟩
  rw [hr] at h
  cases oe with
  | some e => cases h
  | none =>
    obtain ⟨entries, hlen, hjoin, hcount⟩ := run_ops_seq_response ctx ops ops 0 _ _ st b hr
    cases h
    exact ⟨entries, hlen, by simpa using hjoin, hcount⟩

/-- C4 witness: the amended theorem applied to the batch
`[add articles; remove articles/1]`, which succeeds with exactly one
response entry (for the add) and none for the remove. -/
theorem response_entries_per_operation_witness :
    ∃ entries : List (List Obj),
      entries.length = [("add", JSON.obj [("type", JSON.str "articles")]),
        ("remove", JSON.obj [("type", JSON.str "articles"), ("id", JSON.str "1")])].length ∧
      ([[("type", JSON.str "articles"), ("id", JSON.str "3")]] : List Obj) = entries.flatten ∧
      ∀ i (hi : i < entries.length)
        (ho : i < [("add", JSON.obj [("type", JSON.str "articles")]),
          ("remove", JSON.obj [("type", JSON.str "articles"), ("id", JSON.str "1")])].length),
        (entries.get ⟨i, hi⟩).length =
          (if ([("add", JSON.obj [("type", JSON.str "articles")]),
              ("remove", JSON.obj [("type", JSON.str "articles"),
                ("id", JSON.str "1")])].get ⟨i, ho⟩).1 = OP_ADD ∨
              ([("add", JSON.obj [("type", JSON.str "articles")]),
              ("remove", JSON.obj [("type", JSON.str "articles"),
                ("id", JSON.str "1")])].get ⟨i, ho⟩).1 = OP_UPDATE ∨
              ([("add", JSON.obj [("type", JSON.str "articles")]),
              ("remove", JSON.obj [("type", JSON.str "articles"),
                ("id", JSON.str "1")])].get ⟨i, ho⟩).1 = OP_INVOKE then 1 else 0) :=
  response_entries_per_operation ctxTrue viewEmpty storeTwo
    [("add", .obj [("type", .str "articles")]),
     ("remove", .obj [("type", .str "articles"), ("id", .str "1")])]
    ([[("type", .str "articles"), ("id", .str "3")]], 200) (by decide)

/-! ### C1 -/

/-- In sequential mode one loop iteration never inspects the full
operation list (the lookahead only runs in bulk mode). -/
lemma process_operation_seq_full_irrel (ctx : Handler) (f1 f2 : List (String × JSON))
    (idx : Nat) (st : ExecSt) (bulk : BulkData) (op : String × JSON) :
    process_operation ctx true f1 idx st bulk op = process_operation ctx true f2 idx st bulk op :=
  rfl

/-- A sequential walk that fails does so independently of any operations
appended after the failing one: they are never attempted. -/
lemma run_ops_seq_append (ctx : Handler) (f1 f2 : List (String × JSON)) :
    ∀ (ops more : List (String × JSON)) (idx : Nat) (st : ExecSt) (bulk : BulkData)
      (st1 : ExecSt) (b1 : BulkData) (e : Exc),
    run_ops ctx true f1 idx st bulk ops = (st1, b1, some e) →
    run_ops ctx true f2 idx st bulk (ops ++ more) = (st1, b1, some e) := by
  intro ops more
  induction ops with
  | nil =>
    intro idx st bulk st1 b1 e h
    simp [run_ops] at h
  | cons op rest ih =>
    intro idx st bulk st1 b1 e h
    rw [List.cons_append]
    unfold run_ops at h ⊢
    rw [process_operation_seq_full_irrel ctx f2 f1]
    cases hp : process_operation ctx true f1 idx st bulk op with
    | error e2 =>
      rw [hp] at h
      exact h
    | ok p =>
      obtain ⟨st2, bulk2⟩ := p
      rw [hp] at h
      exact ih idx.succ st2 bulk2 st1 b1 e h

/-- C1: the failure side of the atomicity guarantee holds — any
exception rolls the store back to its entry state (the single `atomic()`
scope) and, sequentially, aborts the walk so that operations after the
failing index are never attempted — but the success side is violated in
bulk mode: a committed bulk batch of two Removes deletes only the first
instance (see the `"delete"`/`"remove"` mismatch in `handle_bulk`), so
partial application IS visible after a successful request. -/
theorem atomic_rollback_and_abort :
    ((perform_operations ctxTrue false viewEmpty
        { objs := [(.str "tags", "7", []), (.str "tags", "8", [])], next_pk := 9 }
        [("remove", .obj [("type", .str "tags"), ("id", .str "7")]),
         ("remove", .obj [("type", .str "tags"), ("id", .str "8")])]).result = .ok ([], 204)
      ∧ (perform_operations ctxTrue false viewEmpty
        { objs := [(.str "tags", "7", []), (.str "tags", "8", [])], next_pk := 9 }
        [("remove", .obj [("type", .str "tags"), ("id", .str "7")]),
         ("remove", .obj [("type", .str "tags"), ("id", .str "8")])]).store =
        { objs := [(.str "tags", "8", [])], next_pk := 9 })
    ∧ (∀ (ctx : Handler) (sequential : Bool) (view : ViewState) (store : Store)
        (ops : List (String × JSON)) (e : Exc),
        (perform_operations ctx sequential view store ops).result = .error e →
        (perform_operations ctx sequential view store ops).store = store)
    ∧ (∀ (ctx : Handler) (view : ViewState) (store : Store)
        (ops more : List (String × JSON)) (e : Exc),
        (perform_operations ctx true view store ops).result = .error e →
        (perform_operations ctx true view store (ops ++ more)).result = .error e ∧
        (perform_operations ctx true view store (ops ++ more)).store = store) := by
  refine ⟨⟨by decide, by decide⟩, ?_, ?_⟩
  · intro ctx sequential view store ops e h
    simp only [perform_operations] at h ⊢
    split at h
    · cases h
    · rfl
  · intro ctx view store ops more e h
    simp only [perform_operations] at h ⊢
    split at h
    · cases h
    · rename_i st b e2 heq
      cases h
      rw [run_ops_seq_append ctx ops (ops ++ more) ops more 0 _ _ st b e heq]
      exact ⟨rfl, rfl⟩

/-- C1 witness: a concrete failing batch (update referencing an unknown
lid) leaves the store untouched, and appending a further remove
operation after the failing one changes neither the error nor the
rolled-back store. -/
theorem atomic_rollback_and_abort_witness :
    (perform_operations ctxTrue true viewEmpty storeTwo
      [("update", .obj [("type", .str "a"), ("lid", .str "x")])]).store = storeTwo
    ∧ (perform_operations ctxTrue true viewEmpty storeTwo
      ([("update", .obj [("type", .str "a"), ("lid", .str "x")])] ++
       [("remove", .obj [("type", .str "articles"), ("id", .str "1")])])).result =
      .error (.api (unknownLidError (.str "x") 0))
    ∧ (perform_operations ctxTrue true viewEmpty storeTwo
      ([("update", .obj [("type", .str "a"), ("lid", .str "x")])] ++
       [("remove", .obj [("type", .str "articles"), ("id", .str "1")])])).store = storeTwo :=
  ⟨atomic_rollback_and_abort.2.1 ctxTrue true viewEmpty storeTwo
      [("update", .obj [("type", .str "a"), ("lid", .str "x")])]
      (.api (unknownLidError (.str "x") 0)) (by decide),
   (atomic_rollback_and_abort.2.2 ctxTrue viewEmpty storeTwo
      [("update", .obj [("type", .str "a"), ("lid", .str "x")])]
      [("remove", .obj [("type", .str "articles"), ("id", .str "1")])]
      (.api (unknownLidError (.str "x") 0)) (by decide)).1,
   (atomic_rollback_and_abort.2.2 ctxTrue viewEmpty storeTwo
      [("update", .obj [("type", .str "a"), ("lid", .str "x")])]
      [("remove", .obj [("type", .str "articles"), ("id", .str "1")])]
      (.api (unknownLidError (.str "x") 0)) (by decide)).2⟩

/-! ### C2 -/

/-- C2 counterexample: a lid declared by an Add operation at index 0 is
NOT resolvable at index 1 when the Add's resource type carries the
reserved bulk marker: the bulk-collection branch of `handle_sequential`
never registers the lid, so the next operation fails with
`unknown-lid`. -/
theorem lid_bulk_add_not_registered_cex :
    (perform_operations ctxTrue true viewEmpty storeEmpty
      [("add", .obj [("type", .str "bulkArticles"), ("lid", .str "a")]),
       ("update", .obj [("type", .str "bulkArticles"), ("lid", .str "a")])]).result =
      .error (.api (unknownLidError (.str "a") 1)) := by decide

/-- C2 (amended): sequential lid registration and resolution, stated as
the conjunction of the facts that make forward-only resolution hold for
batches that start from an empty registry:
1. a successful non-bulk-marked Add with a truthy lid registers
   `(type, lid) ↦ the server-assigned id` (the store's next primary key);
2. registry entries survive every later successful dispatch;
3. an entry can only appear through an Add whose payload declares
   exactly that `(type, lid)` — nothing else registers;
4. substitution of a reference `{type, lid}` against a registry that
   holds the pair injects the registered id and does not fail;
5. substitution of a reference against a registry missing the pair
   fails with `unknown-lid` when the error is armed (every operation
   except the top-level add target, and every nested position);
6. the top-level target of an Add is exempt: with the error disarmed the
   unresolved reference passes through unchanged.
Since `process_operation` substitutes against the registry as it stands
BEFORE the operation dispatches and registration happens after a
successful save, an operation at index `j` resolves `(type, lid)` iff
some Add at an index `< j` declared it. -/
theorem lid_registration_and_resolution :
    (∀ (ctx : Handler) (st : ExecSt) (ser : Serializer) (d : Obj) (st1 : ExecSt),
      ser.initial_data = .obj d → ser.instance_ = none →
      truthy ((alistGet d "lid").getD .null) = true →
      is_bulk_operation_type ((alistGet d "type").getD .null) = false →
      handle_sequential ctx st ser OP_ADD = .ok st1 →
      regLookup st1.lid_to_id ((alistGet d "type").getD .null) ((alistGet d "lid").getD .null) =
        some (toString st.store.next_pk))
    ∧ (∀ (ctx : Handler) (st : ExecSt) (ser : Serializer) (code : String) (st1 : ExecSt)
        (t l : JSON) (v : String),
        handle_sequential ctx st ser code = .ok st1 →
        regLookup st.lid_to_id t l = some v →
        ∃ v2, regLookup st1.lid_to_id t l = some v2)
    ∧ (∀ (ctx : Handler) (st : ExecSt) (ser : Serializer) (code : String) (st1 : ExecSt)
        (t l : JSON),
        handle_sequential ctx st ser code = .ok st1 →
        regLookup st.lid_to_id t l = none →
        regLookup st1.lid_to_id t l = none ∨
          (code = OP_ADD ∧ ∃ d, ser.initial_data = .obj d ∧
            (alistGet d "type").getD .null = t ∧ (alistGet d "lid").getD .null = l))
    ∧ (∀ (reg : LidReg) (idx : Nat) (t l : JSON) (v : String) (sr : Bool),
        hashable t = true → hashable l = true → truthy l = true →
        regLookup reg t l = some v →
        substitute_lids reg idx (.obj [("type", t), ("lid", l)]) sr =
          .ok (.obj [("type", t), ("lid", l), ("id", .str v)]))
    ∧ (∀ (reg : LidReg) (idx : Nat) (t l : JSON),
        hashable t = true → hashable l = true → truthy l = true →
        regLookup reg t l = none →
        substitute_lids reg idx (.obj [("type", t), ("lid", l)]) true =
          .error (.api (unknownLidError l idx)))
    ∧ (∀ (reg : LidReg) (idx : Nat) (t l : JSON),
        hashable t = true → hashable l = true → truthy l = true →
        regLookup reg t l = none →
        substitute_lids reg idx (.obj [("type", t), ("lid", l)]) false =
          .ok (.obj [("type", t), ("lid", l)])) := by
  refine ⟨?_, ?_, ?_, ?_, ?_, ?_⟩
  · -- registration by a successful non-bulk add
    intro ctx st ser d st1 hd hinst hlid hbulk h
    simp only [handle_sequential, OP_ADD, OP_UPDATE, OP_REMOVE, OP_INVOKE,
      OP_UPDATE_RELATIONSHIP] at h
    rw [hd] at h
    simp at h
    rw [if_neg (by simp [hbulk])] at h
    split at h <;> cases h
    simp only [serializer_save, hinst]
    exact regLookup_regInsert_self _ _ _ _
  · -- registry entries survive every successful dispatch
    intro ctx st ser code st1 t l v h hv
    by_cases hA : code = OP_ADD
    · subst hA
      simp only [handle_sequential, OP_ADD, OP_UPDATE, OP_REMOVE, OP_INVOKE,
        OP_UPDATE_RELATIONSHIP] at h
      simp at h
      repeat' split at h
      all_goals try cases h
      all_goals try exact ⟨v, hv⟩
      rcases regLookup_regInsert st.lid_to_id _ _ t l ((serializer_save st.store ser).2.1)
        with hcase | hcase
      · exact ⟨_, hcase⟩
      · exact ⟨v, by rw [hcase]; exact hv⟩
    · obtain ⟨entry, hresp⟩ := handle_sequential_response ctx st ser code st1 h
      by_cases hU : code = OP_UPDATE
      · subst hU
        simp only [handle_sequential, OP_ADD, OP_UPDATE, OP_REMOVE, OP_INVOKE,
          OP_UPDATE_RELATIONSHIP] at h
        simp at h
        repeat' split at h
        all_goals try cases h
        all_goals exact ⟨v, hv⟩
      · by_cases hUR : code = OP_UPDATE_RELATIONSHIP
        · subst hUR
          simp only [handle_sequential, OP_ADD, OP_UPDATE, OP_REMOVE, OP_INVOKE,
            OP_UPDATE_RELATIONSHIP] at h
          simp at h
          repeat' split at h
          all_goals try cases h
          all_goals exact ⟨v, hv⟩
        · by_cases hR : code = OP_REMOVE
          · subst hR
            simp only [handle_sequential, OP_ADD, OP_UPDATE, OP_REMOVE, OP_INVOKE,
              OP_UPDATE_RELATIONSHIP] at h
            simp at h
            repeat' split at h
            all_goals try cases h
            all_goals exact ⟨v, hv⟩
          · by_cases hI : code = OP_INVOKE
            · subst hI
              simp only [handle_sequential, OP_ADD, OP_UPDATE, OP_REMOVE, OP_INVOKE,
                OP_UPDATE_RELATIONSHIP] at h
              simp at h
              repeat' split at h
              all_goals try cases h
              all_goals exact ⟨v, hv⟩
            · have hTriple : ¬ (code = OP_ADD ∨ code = OP_UPDATE ∨
                  code = OP_UPDATE_RELATIONSHIP) := by tauto
              unfold handle_sequential at h
              rw [if_neg hTriple, if_neg hR, if_neg hI] at h
              cases h
              exact ⟨v, hv⟩
  · -- an entry can appear only through a declaring add
    intro ctx st ser code st1 t l h hnone
    by_cases hA : code = OP_ADD
    · subst hA
      simp only [handle_sequential, OP_ADD, OP_UPDATE, OP_REMOVE, OP_INVOKE,
        OP_UPDATE_RELATIONSHIP] at h
      cases hd : ser.initial_data <;> rw [hd] at h <;> simp at h
      rename_i d
      split at h
      · split at h <;> cases h
        exact Or.inl hnone
      · split at h <;> cases h
        split
        · rename_i hkey
          by_cases hsame : (alistGet d "type").getD .null = t ∧ (alistGet d "lid").getD .null = l
          · exact Or.inr ⟨rfl, d, rfl, hsame.1, hsame.2⟩
          · rw [regLookup_regInsert_ne _ _ _ _ _ _ hsame]
            exact Or.inl hnone
        · exact Or.inl hnone
    · obtain ⟨entry, hresp⟩ := handle_sequential_response ctx st ser code st1 h
      left
      by_cases hU : code = OP_UPDATE
      · subst hU
        simp only [handle_sequential, OP_ADD, OP_UPDATE, OP_REMOVE, OP_INVOKE,
          OP_UPDATE_RELATIONSHIP] at h
        simp at h
        repeat' split at h
        all_goals try cases h
        all_goals exact hnone
      · by_cases hUR : code = OP_UPDATE_RELATIONSHIP
        · subst hUR
          simp only [handle_sequential, OP_ADD, OP_UPDATE, OP_REMOVE, OP_INVOKE,
            OP_UPDATE_RELATIONSHIP] at h
          simp at h
          repeat' split at h
          all_goals try cases h
          all_goals exact hnone
        · by_cases hR : code = OP_REMOVE
          · subst hR
            simp only [handle_sequential, OP_ADD, OP_UPDATE, OP_REMOVE, OP_INVOKE,
              OP_UPDATE_RELATIONSHIP] at h
            simp at h
            repeat' split at h
            all_goals try cases h
            all_goals exact hnone
          · by_cases hI : code = OP_INVOKE
            · subst hI
              simp only [handle_sequential, OP_ADD, OP_UPDATE, OP_REMOVE, OP_INVOKE,
                OP_UPDATE_RELATIONSHIP] at h
              simp at h
              repeat' split at h
              all_goals try cases h
              all_goals exact hnone
            · have hTriple : ¬ (code = OP_ADD ∨ code = OP_UPDATE ∨
                  code = OP_UPDATE_RELATIONSHIP) := by tauto
              unfold handle_sequential at h
              rw [if_neg hTriple, if_neg hR, if_neg hI] at h
              cases h
              exact hnone
  · -- substitution injects the registered id
    intro reg idx t l v sr ht hl htr hreg
    simp only [substitute_lids, SUBST_FUEL]
    cases t <;> simp only [hashable] at ht <;> try cases ht
    all_goals cases l <;> simp only [hashable] at hl <;> try cases hl
    all_goals simp [substGo, substLidStep, alistGet, htr, hreg, hashable, Obj.hasKey]
  · -- unresolved reference with the error armed
    intro reg idx t l ht hl htr hreg
    simp only [substitute_lids, SUBST_FUEL]
    cases t <;> simp only [hashable] at ht <;> try cases ht
    all_goals cases l <;> simp only [hashable] at hl <;> try cases hl
    all_goals simp [substGo, substLidStep, alistGet, htr, hreg, hashable, Obj.hasKey]
  · -- top-level add target is exempt
    intro reg idx t l ht hl htr hreg
    simp only [substitute_lids, SUBST_FUEL]
    cases t <;> simp only [hashable] at ht <;> try cases ht
    all_goals cases l <;> simp only [hashable] at hl <;> try cases hl
    all_goals simp [substGo, substLidStep, alistGet, htr, hreg, hashable, Obj.hasKey]

/-- C2 witness: the amended theorem applied at concrete inputs — a
successful add of `articles` with lid `"a"` registers `"1"`; resolution
injects the registered id; an unknown `(type, lid)` raises `unknown-lid`
when armed and passes through at the exempt top level of an add. -/
theorem lid_registration_and_resolution_witness :
    regLookup (ExecSt.lid_to_id
      { store := { objs := [(.str "articles", "1", [])], next_pk := 2 }
        response_data := [[("type", .str "articles"), ("id", .str "1")]]
        lid_to_id := [(.str "articles", [(.str "a", "1")])] })
      (.str "articles") (.str "a") = some (toString (1 : Nat))
    ∧ substitute_lids [(.str "articles", [(.str "a", "1")])] 1
        (.obj [("type", .str "articles"), ("lid", .str "a")]) true =
        .ok (.obj [("type", .str "articles"), ("lid", .str "a"), ("id", .str "1")])
    ∧ substitute_lids [] 0 (.obj [("type", .str "articles"), ("lid", .str "b")]) true =
        .error (.api (unknownLidError (.str "b") 0))
    ∧ substitute_lids [] 0 (.obj [("type", .str "articles"), ("lid", .str "b")]) false =
        .ok (.obj [("type", .str "articles"), ("lid", .str "b")]) :=
  ⟨lid_registration_and_resolution.1 ctxTrue
      { store := storeEmpty, response_data := [], lid_to_id := [] }
      { initial_data := .obj [("type", .str "articles"), ("lid", .str "a")]
        resource_type := .str "articles", effective_code := "add", href := none
        isPartialUpdate := false, instance_ := none }
      [("type", .str "articles"), ("lid", .str "a")]
      { store := { objs := [(.str "articles", "1", [])], next_pk := 2 }
        response_data := [[("type", .str "articles"), ("id", .str "1")]]
        lid_to_id := [(.str "articles", [(.str "a", "1")])] }
      rfl rfl (by decide) (by decide) (by decide),
   lid_registration_and_resolution.2.2.2.1 [(.str "articles", [(.str "a", "1")])] 1
      (.str "articles") (.str "a") "1" true (by decide) (by decide) (by decide) (by decide),
   lid_registration_and_resolution.2.2.2.2.1 [] 0 (.str "articles") (.str "b")
      (by decide) (by decide) (by decide) (by decide),
   lid_registration_and_resolution.2.2.2.2.2 [] 0 (.str "articles") (.str "b")
      (by decide) (by decide) (by decide) (by decide)⟩

end AtomicOps
